import Mathlib

/-!
Verification of the countdown engine of the egui interval-timer application
(`src/main.rs`).  The engine consists of the shared `(countdown, status)` pair
guarded by two independent mutexes, the background ticker thread spawned by
`Clock::init`, the host command surface (`start`, `check_status` and the
pause/resume button handlers of `update`), the audio-cue selection of
`Clock::voice_broadcast`, and the single-cue player `Audio::start_play`.

Every access to the two shared fields in the source is a non-blocking
`try_lock`; the outcome of each such attempt is passed to the embedded
operation as an explicit `Bool` argument (`true` = the lock was obtained),
so a single Lean function covers the contended and uncontended executions
of the corresponding Rust block.
-/

set_option maxRecDepth 8192

/-- Embeds the `Status` enum of `src/main.rs` (lines 25-34); `Wait` carries the
source attribute making it the `Default` variant. -/
inductive Status where
  | Running
  | Stop
  | Rest
  | RestRunning
  | Wait
  | RestWait
deriving DecidableEq, Repr

/-- Embeds the engine-relevant fields of `Setting` (lines 317-324): `run_secs`,
`rest_secs` and `auto_next`.  The remaining fields `font_size` and
`transparent` are display-only `f32` values never read by the countdown
engine and are omitted from the embedding. -/
structure Setting where
  run_secs : Nat
  rest_secs : Nat
  auto_next : Bool
deriving DecidableEq, Repr

/-- Embeds the engine-relevant fields produced by `Setting::new` (lines 326-334). -/
def Setting.new : Setting :=
  { run_secs := 45, rest_secs := 30, auto_next := false }

/-- Embeds the shared state owned by `Clock` (lines 120-129): the
`countdown: Arc<Mutex<usize>>` counter, the `status: Arc<Mutex<Status>>`
field and the current `setting`.  The `usize` counter is modelled as `Int`
so that the absence of underflow (the counter never becoming negative) is a
provable property of the transitions rather than an artifact of the type. -/
structure Clock where
  countdown : Int
  status : Status
  setting : Setting
deriving DecidableEq, Repr

/-- Embeds one iteration of the ticker thread body spawned by `Clock::init`
(lines 138-159), without the trailing one-second sleep.  `lm` is the outcome
of `min_arc.try_lock()` and `ls` the outcome of the inner
`status_arc.try_lock()` attempt. -/
def Clock.tick (c : Clock) (lm ls : Bool) : Clock :=
  if lm then
    if 0 < c.countdown then
      if ls then
        if c.status = Status.Running ∨ c.status = Status.RestRunning then
          { c with countdown := c.countdown - 1 }
        else c
      else c
    else
      if ls then
        if c.status = Status.Running then { c with status := Status.Rest }
        else if c.status = Status.RestRunning then { c with status := Status.RestWait }
        else { c with status := Status.Wait }
      else c
  else c

/-- Embeds `Clock::start` (lines 162-169): the `countdown` lock attempt `lm`
guards the reset to `run_secs`, the independent `status` lock attempt `ls`
guards the switch to `Running`. -/
def Clock.start (c : Clock) (lm ls : Bool) : Clock :=
  let c1 := if lm then { c with countdown := (c.setting.run_secs : Int) } else c
  if ls then { c1 with status := Status.Running } else c1

/-- Embeds `Clock::check_status` (lines 171-186).  `ls` is the outer
`status.try_lock()` outcome, `lm` the inner `countdown.try_lock()` outcome
used by the `Rest` branch; `lm2` and `ls2` are the lock outcomes of the
`start()` call performed when the `auto_next` flag computes to true (the
outer status guard of the source is already dropped at that point). -/
def Clock.check_status (c : Clock) (ls lm lm2 ls2 : Bool) : Clock :=
  if ls then
    let c1 :=
      if c.status = Status.Rest then
        if lm then
          { c with countdown := (c.setting.rest_secs : Int), status := Status.RestRunning }
        else c
      else c
    if c1.status = Status.RestWait ∧ c1.setting.auto_next = true then
      Clock.start c1 lm2 ls2
    else c1
  else c

/-- Embeds the pause button handler of `update` (lines 244-248): shown and
effective only while `status == Running`, under the `status` lock attempt `ls`. -/
def Clock.pause (c : Clock) (ls : Bool) : Clock :=
  if ls then
    if c.status = Status.Running then { c with status := Status.Stop } else c
  else c

/-- Embeds the resume button handler of `update` (lines 249-253): shown and
effective only while `status == Stop`, under the `status` lock attempt `ls`. -/
def Clock.resume (c : Clock) (ls : Bool) : Clock :=
  if ls then
    if c.status = Status.Stop then { c with status := Status.Running } else c
  else c

/-- Runs `n` uncontended ticker iterations (every `try_lock` succeeds). -/
def Clock.tickN : Nat → Clock → Clock
  | 0, c => c
  | n + 1, c => Clock.tickN n (Clock.tick c true true)

/-- Runs `n` uncontended `check_status` calls. -/
def Clock.checkN : Nat → Clock → Clock
  | 0, c => c
  | n + 1, c => Clock.checkN n (Clock.check_status c true true true true)

/-- Embeds the cue-selection policy of `Clock::voice_broadcast` (lines
188-220) on an uncontended `(status, countdown)` snapshot: the cue file
requested this cycle, or `none`.  The source prefixes each file name with
`current_dir()` plus `/assets/audio/`; the two sequential `if` statements of
the source are mutually exclusive because `status` is a single value, so the
policy is a single conditional chain. -/
def voice_broadcast (st : Status) (sec : Int) : Option String :=
  if st = Status.Running then
    if sec = 90 then some "90.mp3"
    else if sec = 60 then some "60.mp3"
    else if sec = 30 then some "30.mp3"
    else if sec = 10 then some "10.mp3"
    else if sec = 5 then some "05.mp3"
    else if sec = 0 then some "rest.mp3"
    else none
  else if st = Status.RestRunning ∧ sec = 0 then some "next.mp3"
  else none

/-- Embeds the `PlaybackState` of the kira streaming sound handle queried by
`Audio::start_play`. -/
inductive PlaybackState where
  | Playing
  | Pausing
  | Paused
  | Stopping
  | Stopped
deriving DecidableEq, Repr

/-- Embeds the error of `AudioManager::play`; the source unwraps it
(line 421), so it surfaces as a panic, modelled as `Except.error`. -/
inductive PlayError where
  | soundLimitReached
deriving DecidableEq, Repr

/-- Embeds `Audio` (lines 396-399): the handle of the most recently started
sound, represented by its playback state; `none` while no sound was ever
started. -/
structure Audio where
  sound_handle : Option PlaybackState
deriving DecidableEq, Repr

/-- Embeds `Audio::start_play` (lines 412-424).  `load_ok` is the outcome of
`StreamingSoundData::from_file` (`false` = load or decode failure), `play_ok`
the outcome of `manager.play` (`false` makes the unwrap of the source panic).
Returns the audio state after the call together with a flag telling whether a
new cue actually started playing. -/
def Audio.start_play (a : Audio) (load_ok play_ok : Bool) :
    Except PlayError (Audio × Bool) :=
  match a.sound_handle with
  | some st =>
    if st = PlaybackState.Playing then Except.ok (a, false)
    else if load_ok then
      if play_ok then Except.ok ({ sound_handle := some PlaybackState.Playing }, true)
      else Except.error PlayError.soundLimitReached
    else Except.ok (a, false)
  | none =>
    if load_ok then
      if play_ok then Except.ok ({ sound_handle := some PlaybackState.Playing }, true)
      else Except.error PlayError.soundLimitReached
    else Except.ok (a, false)

/-- Initial engine state of the default scenario: `Clock::default` gives
`countdown = 0` and `status = Wait` (the default `Status` variant), and
`Setting::new` gives `run_secs = 45`, `rest_secs = 30`, `auto_next = false`. -/
def clock0 : Clock :=
  { countdown := 0, status := Status.Wait, setting := Setting.new }

/-- Reachability of a clock state from the initial state built by
`Clock::default` (`countdown = 0`, `status = Wait`) under arbitrary
interleavings of ticker iterations, host commands and live settings edits,
with arbitrary lock-acquisition outcomes at every step. -/
inductive Reachable : Clock → Prop where
  | init (s : Setting) :
      Reachable { countdown := 0, status := Status.Wait, setting := s }
  | tick {c : Clock} (h : Reachable c) (lm ls : Bool) :
      Reachable (Clock.tick c lm ls)
  | start {c : Clock} (h : Reachable c) (lm ls : Bool) :
      Reachable (Clock.start c lm ls)
  | pause {c : Clock} (h : Reachable c) (ls : Bool) :
      Reachable (Clock.pause c ls)
  | resume {c : Clock} (h : Reachable c) (ls : Bool) :
      Reachable (Clock.resume c ls)
  | check {c : Clock} (h : Reachable c) (ls lm lm2 ls2 : Bool) :
      Reachable (Clock.check_status c ls lm lm2 ls2)
  | edit {c : Clock} (h : Reachable c) (s : Setting) :
      Reachable { c with setting := s }

theorem start_countdown_nonneg (c : Clock) (lm ls : Bool) (h : 0 ≤ c.countdown) :
    0 ≤ (Clock.start c lm ls).countdown := by
  unfold Clock.start
  split_ifs <;> simp_all

theorem tick_countdown_nonneg (c : Clock) (lm ls : Bool) (h : 0 ≤ c.countdown) :
    0 ≤ (Clock.tick c lm ls).countdown := by
  unfold Clock.tick
  split_ifs <;> simp_all
  omega

theorem check_countdown_nonneg (c : Clock) (ls lm lm2 ls2 : Bool)
    (h : 0 ≤ c.countdown) :
    0 ≤ (Clock.check_status c ls lm lm2 ls2).countdown := by
  simp only [Clock.check_status]
  split_ifs
  all_goals first
    | exact h
    | simp
    | exact start_countdown_nonneg _ _ _ h
    | exact start_countdown_nonneg _ _ _ (by simp)

theorem countdown_nonneg {c : Clock} (h : Reachable c) : 0 ≤ c.countdown := by
  induction h with
  | init s => simp
  | tick h lm ls ih => exact tick_countdown_nonneg _ lm ls ih
  | start h lm ls ih => exact start_countdown_nonneg _ lm ls ih
  | pause h ls ih =>
      unfold Clock.pause
      split_ifs <;> simp_all
  | resume h ls ih =>
      unfold Clock.resume
      split_ifs <;> simp_all
  | check h ls lm lm2 ls2 ih => exact check_countdown_nonneg _ ls lm lm2 ls2 ih
  | edit h s ih => simp_all

theorem tick_countdown_of_nonpos (c : Clock) (lm ls : Bool) (h : ¬ 0 < c.countdown) :
    (Clock.tick c lm ls).countdown = c.countdown := by
  unfold Clock.tick
  split_ifs <;> simp_all

theorem tick_countdown_cases (c : Clock) (lm ls : Bool) :
    (Clock.tick c lm ls).countdown = c.countdown ∨
      (lm = true ∧ ls = true ∧ 0 < c.countdown ∧
        (c.status = Status.Running ∨ c.status = Status.RestRunning) ∧
        (Clock.tick c lm ls).countdown = c.countdown - 1) := by
  unfold Clock.tick
  split_ifs <;> simp_all

theorem tickN_countdown_zero (n : Nat) (c : Clock) (h : c.countdown = 0) :
    (Clock.tickN n c).countdown = 0 := by
  induction n generalizing c with
  | zero => simpa [Clock.tickN] using h
  | succ n ih =>
      have hz : (Clock.tick c true true).countdown = 0 := by
        rw [tick_countdown_of_nonpos c true true (by omega)]
        exact h
      exact ih _ hz

theorem tick_wait_fix (c : Clock) (h0 : c.countdown = 0) (hw : c.status = Status.Wait) :
    Clock.tick c true true = c := by
  obtain ⟨cd, st, se⟩ := c
  simp_all [Clock.tick]

theorem tickN_fix (n : Nat) (c : Clock) (h : Clock.tick c true true = c) :
    Clock.tickN n c = c := by
  induction n with
  | zero => rfl
  | succ n ih =>
      have hs : Clock.tickN (n + 1) c = Clock.tickN n (Clock.tick c true true) := rfl
      rw [hs, h]
      exact ih

theorem checkN_fix (n : Nat) (c : Clock)
    (h : Clock.check_status c true true true true = c) :
    Clock.checkN n c = c := by
  induction n with
  | zero => rfl
  | succ n ih =>
      have hs : Clock.checkN (n + 1) c =
          Clock.checkN n (Clock.check_status c true true true true) := rfl
      rw [hs, h]
      exact ih

theorem check_status_countdown_cases (c : Clock) (ls lm lm2 ls2 : Bool) :
    (Clock.check_status c ls lm lm2 ls2).countdown = c.countdown ∨
    (c.status = Status.Rest ∧
      (Clock.check_status c ls lm lm2 ls2).countdown = (c.setting.rest_secs : Int)) ∨
    (c.status = Status.RestWait ∧ c.setting.auto_next = true ∧
      (Clock.check_status c ls lm lm2 ls2).countdown = (c.setting.run_secs : Int)) := by
  simp only [Clock.check_status, Clock.start]
  split_ifs <;> simp_all

/-- C1 counterexample: in the Scenario-1 configuration (`run_secs = 45`,
`rest_secs = 30`, `auto_next = false`), after `start()` and exactly 45
uncontended ticks the state is `(Running, 0)`, not `(Rest, 0)` as claimed:
the 45 ticks spend themselves decrementing `countdown` from 45 to 0 and the
`Running → Rest` transition only happens on a later tick. -/
theorem scenario1_45_ticks_still_running :
    Clock.tickN 45 (Clock.start clock0 true true) =
      { countdown := 0, status := Status.Running, setting := Setting.new } ∧
    Status.Running ≠ Status.Rest := by
  exact ⟨by decide, by decide⟩

/-- C1 (amended): from the initial state with `run_secs = 45`,
`rest_secs = 30`, `auto_next = false`, `start()` yields `(Running, 45)`;
45 uncontended ticks then yield `(Running, 0)` and one further tick (46 in
total) yields `(Rest, 0)`; the next `check_status()` yields
`(RestRunning, 30)`; 30 ticks yield `(RestRunning, 0)` and one further tick
(31 in total) yields `(RestWait, 0)`; every further `check_status()` call
leaves the state unchanged. -/
theorem scenario1_amended :
    Clock.start clock0 true true =
      { countdown := 45, status := Status.Running, setting := Setting.new } ∧
    Clock.tickN 45 (Clock.start clock0 true true) =
      { countdown := 0, status := Status.Running, setting := Setting.new } ∧
    Clock.tickN 46 (Clock.start clock0 true true) =
      { countdown := 0, status := Status.Rest, setting := Setting.new } ∧
    Clock.check_status (Clock.tickN 46 (Clock.start clock0 true true)) true true true true =
      { countdown := 30, status := Status.RestRunning, setting := Setting.new } ∧
    Clock.tickN 30 { countdown := 30, status := Status.RestRunning, setting := Setting.new } =
      { countdown := 0, status := Status.RestRunning, setting := Setting.new } ∧
    Clock.tickN 31 { countdown := 30, status := Status.RestRunning, setting := Setting.new } =
      { countdown := 0, status := Status.RestWait, setting := Setting.new } ∧
    ∀ n : Nat,
      Clock.checkN n { countdown := 0, status := Status.RestWait, setting := Setting.new } =
        { countdown := 0, status := Status.RestWait, setting := Setting.new } := by
  refine ⟨by decide, by decide, by decide, by decide, by decide, by decide, fun n => ?_⟩
  exact checkN_fix n _ (by decide)

/-- C2: for every reachable state and arbitrary lock outcomes, `countdown`
never goes negative; a tick changes `countdown` only when both locks were
obtained, `countdown > 0` and the status is `Running` or `RestRunning` (and
then it decrements by exactly one, so in particular ticks while `Stop` never
change `countdown`); and once `countdown = 0` with status `Running` or
`RestRunning`, the very next uncontended tick changes the status, and no
tick ever decrements `countdown` again. -/
theorem clock_safety_invariants (c : Clock) (lm ls : Bool) (h : Reachable c) :
    0 ≤ c.countdown ∧
    ((Clock.tick c lm ls).countdown ≠ c.countdown →
      lm = true ∧ ls = true ∧ 0 < c.countdown ∧
      (c.status = Status.Running ∨ c.status = Status.RestRunning) ∧
      (Clock.tick c lm ls).countdown = c.countdown - 1) ∧
    (c.status = Status.Stop → (Clock.tick c lm ls).countdown = c.countdown) ∧
    (c.countdown = 0 → (c.status = Status.Running ∨ c.status = Status.RestRunning) →
      (Clock.tick c true true).status ≠ c.status ∧
      ∀ n : Nat, (Clock.tickN n c).countdown = 0) := by
  refine ⟨countdown_nonneg h, ?_, ?_, ?_⟩
  · intro hne
    rcases tick_countdown_cases c lm ls with he | hd
    · exact absurd he hne
    · exact hd
  · intro hstop
    rcases tick_countdown_cases c lm ls with he | hd
    · exact he
    · rcases hd.2.2.2.1 with h1 | h1 <;> rw [hstop] at h1 <;> exact absurd h1 (by decide)
  · intro h0 hrun
    refine ⟨?_, fun n => tickN_countdown_zero n c h0⟩
    unfold Clock.tick
    rcases hrun with h1 | h1 <;> simp [h0, h1]

/-- C2 witness: the state `(Running, 0)` is reachable (via `start` with a
contended countdown lock from the initial state); there the invariants give
a nonnegative counter, a status change on the next uncontended tick, and a
counter frozen at zero over any further ticks. -/
theorem clock_safety_invariants_example :
    (0 : Int) ≤
      ({ countdown := 0, status := Status.Running, setting := Setting.new } : Clock).countdown ∧
    (Clock.tick { countdown := 0, status := Status.Running, setting := Setting.new }
        true true).status ≠ Status.Running ∧
    (Clock.tickN 7
        { countdown := 0, status := Status.Running, setting := Setting.new }).countdown = 0 := by
  have hre : Reachable
      ({ countdown := 0, status := Status.Running, setting := Setting.new } : Clock) :=
    Reachable.start (Reachable.init Setting.new) false true
  have h := clock_safety_invariants _ true true hre
  exact ⟨h.1, (h.2.2.2 rfl (Or.inl rfl)).1, (h.2.2.2 rfl (Or.inl rfl)).2 7⟩

/-- C3: a tick observing `countdown = 0` while the status is neither
`Running` nor `RestRunning` writes `Wait` into the status and leaves the
counter at 0, and any number of further uncontended ticks from the resulting
state changes nothing. -/
theorem tick_catch_all (c : Clock) (h0 : c.countdown = 0)
    (h1 : c.status ≠ Status.Running) (h2 : c.status ≠ Status.RestRunning) :
    Clock.tick c true true = { c with status := Status.Wait } ∧
    ∀ n : Nat, Clock.tickN n (Clock.tick c true true) = Clock.tick c true true := by
  have heq : Clock.tick c true true = { c with status := Status.Wait } := by
    unfold Clock.tick
    simp [h0, h1, h2]
  refine ⟨heq, fun n => ?_⟩
  rw [heq]
  exact tickN_fix n _ (tick_wait_fix _ (by simpa using h0) (by simp))

/-- C3 witness: a tick at `(Stop, 0)` produces `(Wait, 0)` and four further
ticks change nothing. -/
theorem tick_catch_all_example :
    Clock.tick { countdown := 0, status := Status.Stop, setting := Setting.new } true true =
      { countdown := 0, status := Status.Wait, setting := Setting.new } ∧
    Clock.tickN 4
        (Clock.tick { countdown := 0, status := Status.Stop, setting := Setting.new } true true) =
      Clock.tick { countdown := 0, status := Status.Stop, setting := Setting.new } true true := by
  have h := tick_catch_all { countdown := 0, status := Status.Stop, setting := Setting.new }
    rfl (by decide) (by decide)
  exact ⟨h.1, h.2 4⟩

/-- C4: a `check_status()` call made while the status is `Rest` (with both
locks available) writes the current `rest_secs` into the counter and moves
the status to `RestRunning`; and among the host commands, besides `start()`
(reached from `check_status` only through the auto-next delegation), this
`Rest` branch is the only writer of the counter: pause and resume never
change it, and a `check_status()` call changes it only to `rest_secs` out of
`Rest` or to `run_secs` out of `RestWait` with `auto_next` set. -/
theorem check_status_rest_transition (c d : Clock) (ls lm lm2 ls2 : Bool)
    (h : c.status = Status.Rest) :
    Clock.check_status c true true lm2 ls2 =
      { c with countdown := (c.setting.rest_secs : Int), status := Status.RestRunning } ∧
    (Clock.pause d ls).countdown = d.countdown ∧
    (Clock.resume d ls).countdown = d.countdown ∧
    ((Clock.check_status d ls lm lm2 ls2).countdown ≠ d.countdown →
      (d.status = Status.Rest ∧
        (Clock.check_status d ls lm lm2 ls2).countdown = (d.setting.rest_secs : Int)) ∨
      (d.status = Status.RestWait ∧ d.setting.auto_next = true ∧
        (Clock.check_status d ls lm lm2 ls2).countdown = (d.setting.run_secs : Int))) := by
  refine ⟨?_, ?_, ?_, ?_⟩
  · simp [Clock.check_status, h]
  · unfold Clock.pause
    split_ifs <;> simp
  · unfold Clock.resume
    split_ifs <;> simp
  · intro hne
    rcases check_status_countdown_cases d ls lm lm2 ls2 with he | hr | hw
    · exact absurd he hne
    · exact Or.inl hr
    · exact Or.inr hw

/-- C4 witness: at `(Rest, 5)` with `rest_secs = 30`, an uncontended
`check_status()` produces `(RestRunning, 30)`, and pause and resume leave
the counter at 5. -/
theorem check_status_rest_transition_example :
    Clock.check_status { countdown := 5, status := Status.Rest, setting := Setting.new }
        true true true true =
      { countdown := 30, status := Status.RestRunning, setting := Setting.new } ∧
    (Clock.pause { countdown := 5, status := Status.Rest, setting := Setting.new }
        true).countdown = 5 ∧
    (Clock.resume { countdown := 5, status := Status.Rest, setting := Setting.new }
        true).countdown = 5 := by
  have h := check_status_rest_transition
    { countdown := 5, status := Status.Rest, setting := Setting.new }
    { countdown := 5, status := Status.Rest, setting := Setting.new }
    true true true true rfl
  exact ⟨h.1, h.2.1, h.2.2.1⟩

/-- C5: a `check_status()` call made while the status is `RestWait` and
`auto_next` is set delegates to `start()`, and with all locks available the
resulting state is `(Running, run_secs)` whatever the counter held before. -/
theorem check_status_auto_next (c : Clock) (h1 : c.status = Status.RestWait)
    (h2 : c.setting.auto_next = true) :
    Clock.check_status c true true true true = Clock.start c true true ∧
    Clock.check_status c true true true true =
      { c with countdown := (c.setting.run_secs : Int), status := Status.Running } := by
  have hdel : Clock.check_status c true true true true = Clock.start c true true := by
    simp [Clock.check_status, h1, h2]
  refine ⟨hdel, ?_⟩
  rw [hdel]
  simp [Clock.start]

/-- C5 witness: at `(RestWait, 7)` with `run_secs = 45` and `auto_next`
set, one uncontended `check_status()` yields `(Running, 45)`. -/
theorem check_status_auto_next_example :
    Clock.check_status
        { countdown := 7, status := Status.RestWait,
          setting := { run_secs := 45, rest_secs := 30, auto_next := true } }
        true true true true =
      { countdown := 45, status := Status.Running,
        setting := { run_secs := 45, rest_secs := 30, auto_next := true } } := by
  exact (check_status_auto_next
    { countdown := 7, status := Status.RestWait,
      setting := { run_secs := 45, rest_secs := 30, auto_next := true } } rfl rfl).2

/-- C6: while the status is `RestWait` and `auto_next` is off, a
`check_status()` call changes nothing, for every combination of lock
outcomes; hence any number of repeated calls never mutates the state. -/
theorem check_status_restwait_idempotent (c : Clock) (ls lm lm2 ls2 : Bool) (n : Nat)
    (h1 : c.status = Status.RestWait) (h2 : c.setting.auto_next = false) :
    Clock.check_status c ls lm lm2 ls2 = c ∧ Clock.checkN n c = c := by
  have hfix : ∀ a b a2 b2 : Bool, Clock.check_status c a b a2 b2 = c := by
    intro a b a2 b2
    simp [Clock.check_status, h1, h2]
  exact ⟨hfix ls lm lm2 ls2, checkN_fix n c (hfix true true true true)⟩

/-- C6 witness: at `(RestWait, 0)` with `auto_next` off, one uncontended
`check_status()` and five repeated calls leave the state unchanged. -/
theorem check_status_restwait_idempotent_example :
    Clock.check_status { countdown := 0, status := Status.RestWait, setting := Setting.new }
        true true true true =
      { countdown := 0, status := Status.RestWait, setting := Setting.new } ∧
    Clock.checkN 5 { countdown := 0, status := Status.RestWait, setting := Setting.new } =
      { countdown := 0, status := Status.RestWait, setting := Setting.new } := by
  exact check_status_restwait_idempotent
    { countdown := 0, status := Status.RestWait, setting := Setting.new }
    true true true true 5 rfl rfl

/-- C7: on an uncontended snapshot, a cue is requested if and only if the
status is `Running` with the counter at one of the thresholds 90, 60, 30,
10, 5, 0 or the status is `RestRunning` with the counter at 0; each
`Running` threshold is bound to its own distinct audio resource, 0 to the
phase-end/rest cue, and the `RestRunning` case to the next-phase cue; every
other combination requests nothing. -/
theorem voice_broadcast_policy (st : Status) (sec : Int) :
    ((voice_broadcast st sec).isSome ↔
      (st = Status.Running ∧
        (sec = 90 ∨ sec = 60 ∨ sec = 30 ∨ sec = 10 ∨ sec = 5 ∨ sec = 0)) ∨
      (st = Status.RestRunning ∧ sec = 0)) ∧
    voice_broadcast Status.Running 90 = some "90.mp3" ∧
    voice_broadcast Status.Running 60 = some "60.mp3" ∧
    voice_broadcast Status.Running 30 = some "30.mp3" ∧
    voice_broadcast Status.Running 10 = some "10.mp3" ∧
    voice_broadcast Status.Running 5 = some "05.mp3" ∧
    voice_broadcast Status.Running 0 = some "rest.mp3" ∧
    voice_broadcast Status.RestRunning 0 = some "next.mp3" ∧
    (["90.mp3", "60.mp3", "30.mp3", "10.mp3", "05.mp3", "rest.mp3",
      "next.mp3"] : List String).Nodup := by
  refine ⟨?_, by decide, by decide, by decide, by decide, by decide, by decide,
    by decide, by decide⟩
  unfold voice_broadcast
  split_ifs <;> simp_all

/-- C8: while a previously started cue still reports `Playing`, a new
playback request is dropped whole: whatever the load and play outcomes would
have been, `start_play` leaves the player state unchanged, starts no cue and
raises no error. -/
theorem start_play_drop_while_playing (a : Audio) (load_ok play_ok : Bool)
    (h : a.sound_handle = some PlaybackState.Playing) :
    Audio.start_play a load_ok play_ok = Except.ok (a, false) := by
  unfold Audio.start_play
  rw [h]
  simp

/-- C8 witness: with a handle in the `Playing` state, a request with a
loadable resource and a willing player is still dropped. -/
theorem start_play_drop_while_playing_example :
    Audio.start_play { sound_handle := some PlaybackState.Playing } true true =
      Except.ok (({ sound_handle := some PlaybackState.Playing } : Audio), false) := by
  exact start_play_drop_while_playing
    { sound_handle := some PlaybackState.Playing } true true rfl

/-- C9: a failure to load or decode the cue resource is swallowed: whatever
the player state and whatever `manager.play` would have answered, the call
returns successfully with the audio state unchanged and no cue started — a
silent no-op for that cycle. -/
theorem start_play_load_failure (a : Audio) (play_ok : Bool) :
    Audio.start_play a false play_ok = Except.ok (a, false) := by
  obtain ⟨sh⟩ := a
  cases sh with
  | none => simp [Audio.start_play]
  | some st => cases st <;> simp [Audio.start_play]

/-- C10: a single tick iteration writes at most one of the two shared
fields: with a positive counter the status is never written, and with the
counter at zero the counter is never written; consequently the tick that
decrements the counter to zero never changes the status on that same
iteration. -/
theorem tick_single_field (c : Clock) (lm ls : Bool) :
    (0 < c.countdown → (Clock.tick c lm ls).status = c.status) ∧
    (c.countdown = 0 → (Clock.tick c lm ls).countdown = c.countdown) ∧
    (0 < c.countdown ∧ (Clock.tick c lm ls).countdown = 0 →
      (Clock.tick c lm ls).status = c.status) := by
  have hstat : 0 < c.countdown → (Clock.tick c lm ls).status = c.status := by
    intro h
    unfold Clock.tick
    split_ifs <;> simp_all
  exact ⟨hstat, fun h0 => tick_countdown_of_nonpos c lm ls (by omega),
    fun hh => hstat hh.1⟩

/-- C10 witness: the uncontended tick at `(Running, 1)` decrements the
counter to zero and leaves the status `Running`, and the uncontended tick at
`(Running, 0)` leaves the counter at zero. -/
theorem tick_single_field_example :
    (Clock.tick { countdown := 1, status := Status.Running, setting := Setting.new }
        true true).status = Status.Running ∧
    (Clock.tick { countdown := 0, status := Status.Running, setting := Setting.new }
        true true).countdown = 0 := by
  exact ⟨(tick_single_field
      { countdown := 1, status := Status.Running, setting := Setting.new } true true).1
      (by decide),
    (tick_single_field
      { countdown := 0, status := Status.Running, setting := Setting.new } true true).2.1 rfl⟩
